import Mathlib

/-!
# Verification of the `python_whatsapp_bot` dispatch engine

A shallow embedding of `src/python_whatsapp_bot/handler_classes.py` and
`src/python_whatsapp_bot/dispatcher.py`.

Modelling conventions:
* Python dictionaries reached with `.get` chains become structures with
  `Option`-typed fields (`none` = key absent); `.get(k, d)` becomes `getD`.
* A Python expression that may raise is modelled in `Except Unit`
  (`.error ()` = an exception was raised).
* A compiled regex is modelled as its match-at-start predicate
  `String → Bool` (re.match with a valid pattern on a `str` cannot raise);
  `re.match(pattern, None)` raises TypeError, which the model reflects when
  the derived message text is `none`.
* A user-supplied filter callable may raise, so it is modelled as
  `Option String → Except Unit Bool` (its argument is the derived message
  text, which can be Python `None`).
* A handler's `action` is opaque to the dispatcher except for whether
  invoking it raises: it is modelled as `Option ActionBeh`
  (`none` = `action is None`, in which case `run`'s
  `inspect.getfullargspec(None)` raises before the action is invoked).
* Python object identity (`==` on handler instances, which define no
  `__eq__`) is modelled by a numeric tag `hid`: distinct live objects have
  distinct tags.
-/

namespace WhatsappBot

/-- Behaviour of an opaque Python callable used as a handler action:
invoking it either returns normally or raises. -/
inductive ActionBeh where
  | ok : ActionBeh
  | raises : ActionBeh
deriving DecidableEq, Repr

/-- The `msg["interactive"]` sub-dictionary of an inbound message. -/
structure InteractiveData where
  /-- `msg["interactive"]["type"]` (`none` = key absent, lookup raises). -/
  itype : Option String := none
  /-- `msg["interactive"].get("button_reply", {}).get("id")`. -/
  button_reply_id : Option String := none
  /-- `msg["interactive"].get("list_reply", {}).get("id")`. -/
  list_reply_id : Option String := none
deriving DecidableEq, Repr

/-- The media sub-dictionary (`msg["image"]`, `msg["audio"]`, `msg["video"]`,
`msg["sticker"]`): every read uses `.get` with a default, so an absent key
is the same as an empty dictionary. -/
structure MediaData where
  caption : Option String := none
  mime_type : Option String := none
  id : Option String := none
  sha256 : Option String := none
  /-- `audio` only: `.get("voice", "")`; the provider sends a boolean. -/
  voice : Option Bool := none
deriving DecidableEq, Repr

/-- The `msg["location"]` sub-dictionary; all reads use `.get` with `""`. -/
structure LocationData where
  name : Option String := none
  address : Option String := none
  /-- `str` rendering of the latitude value. -/
  latitude : Option String := none
  /-- `str` rendering of the longitude value. -/
  longitude : Option String := none
deriving DecidableEq, Repr

/-- One element of `value["messages"]`. -/
structure Msg where
  /-- `msg.get("type")`. -/
  type : Option String := none
  /-- `msg.get("text", {}).get("body", ...)`. -/
  text_body : Option String := none
  /-- `msg.get("interactive")`; `none` = key absent (indexing raises). -/
  interactive : Option InteractiveData := none
  image : MediaData := {}
  audio : MediaData := {}
  video : MediaData := {}
  sticker : MediaData := {}
  location : LocationData := {}
deriving DecidableEq, Repr

instance : Inhabited Msg := ⟨{}⟩

/-- `UpdateData.__init__` defaults (handler_classes.py:94-110).
`message_txt` starts as `""`; interactive extraction can overwrite it with
a dictionary lookup that yields Python `None`, hence `Option String`. -/
structure UpdateData where
  message_txt : Option String := some ""
  media_mime_type : Option String := none
  media_file_id : Option String := none
  media_hash : Option String := none
  media_voice : Option Bool := none
  loc_address : Option String := none
  loc_name : Option String := none
  loc_latitude : Option String := none
  loc_longitude : Option String := none
deriving DecidableEq, Repr

instance : Inhabited UpdateData := ⟨{}⟩

/-- The concrete Python class of a handler object; it selects which
`extract_data` override runs.  `base` is a bare `UpdateHandler` (also the
class of `MediaHandler`, which defines no `extract_data` of its own). -/
inductive HandlerKind where
  | base
  | message
  | interactive
  | image
  | audio
  | video
  | sticker
  | location
  | unknown
  | unsupported
deriving DecidableEq, Repr

/-- A handler object (handler_classes.py:113-123 and subclasses).
`hid` models Python object identity. -/
structure UpdateHandler where
  hid : Nat
  kind : HandlerKind
  name : Option String := none
  regex : Option (String → Bool) := none
  func : Option (Option String → Except Unit Bool) := none
  action : Option ActionBeh := none
  context : Bool := true
  /-- `handle_list` for `InteractiveQueryHandler`; `None` on the base class. -/
  list : Option Bool := none
  /-- `handle_button` for `InteractiveQueryHandler`; `None` on the base class. -/
  button : Option Bool := none
  persistent : Bool := false

namespace UpdateHandler

/-- `UpdateHandler.filter_check` (handler_classes.py:131-137): regex first
(a present pattern is truthy), then the custom callable, else pass.
`re.match(pattern, None)` raises TypeError, modelled as `.error ()`. -/
def filter_check (h : UpdateHandler) (msg : Option String) : Except Unit Bool :=
  match h.regex with
  | some r =>
    match msg with
    | some s => .ok (r s)
    | none => .error ()
  | none =>
    match h.func with
    | some f => f msg
    | none => .ok true

/-- Per-class `extract_data`.  The base class (and every class that does not
override it: `MediaHandler`, `UnknownHandler`, `UnsupportedHandler`) returns
`message_txt = ""`.  Only `InteractiveQueryHandler.extract_data` can raise:
it indexes `msg["interactive"]["type"]` without a default. -/
def extract_data (h : UpdateHandler) (msg : Msg) : Except Unit UpdateData :=
  match h.kind with
  | .message =>
    -- MessageHandler (handler_classes.py:178-181)
    .ok { message_txt := some ((msg.text_body).getD "") }
  | .interactive =>
    -- InteractiveQueryHandler (handler_classes.py:207-215)
    match msg.interactive with
    | none => .error ()
    | some i =>
      match i.itype with
      | none => .error ()
      | some t =>
        let message_txt : Option String :=
          if t = "button_reply" && (h.button).getD false then i.button_reply_id
          else if t = "list_reply" && (h.list).getD false then i.list_reply_id
          else some ""
        .ok { message_txt := message_txt }
  | .image =>
    -- ImageHandler (handler_classes.py:240-248)
    .ok { message_txt := some ((msg.image.caption).getD "")
          media_mime_type := some ((msg.image.mime_type).getD "")
          media_file_id := some ((msg.image.id).getD "")
          media_hash := some ((msg.image.sha256).getD "") }
  | .audio =>
    -- AudioHandler (handler_classes.py:257-265); no caption, so
    -- `message_txt` keeps the `UpdateData` default `""`.
    .ok { media_mime_type := some ((msg.audio.mime_type).getD "")
          media_file_id := some ((msg.audio.id).getD "")
          media_hash := some ((msg.audio.sha256).getD "")
          media_voice := msg.audio.voice }
  | .video =>
    -- VideoHandler (handler_classes.py:274-282)
    .ok { message_txt := some ((msg.video.caption).getD "")
          media_mime_type := some ((msg.video.mime_type).getD "")
          media_file_id := some ((msg.video.id).getD "")
          media_hash := some ((msg.video.sha256).getD "") }
  | .sticker =>
    -- StickerHandler (handler_classes.py:291-298)
    .ok { media_mime_type := some ((msg.sticker.mime_type).getD "")
          media_file_id := some ((msg.sticker.id).getD "")
          media_hash := some ((msg.sticker.sha256).getD "") }
  | .location =>
    -- LocationHandler (handler_classes.py:318-333); the fallback string
    -- interpolates `data.loc_longitude` into BOTH coordinate slots.
    let loc_name := (msg.location.name).getD ""
    let loc_address := (msg.location.address).getD ""
    let loc_latitude := (msg.location.latitude).getD ""
    let loc_longitude := (msg.location.longitude).getD ""
    .ok { message_txt := some
            (if loc_address ≠ "" then loc_name ++ "\n" ++ loc_address
             else "long - _" ++ loc_longitude ++ "_\nlat - _" ++ loc_longitude ++ "_")
          loc_address := some loc_address
          loc_name := some loc_name
          loc_latitude := some loc_latitude
          loc_longitude := some loc_longitude }
  | _ =>
    -- UpdateHandler.extract_data (handler_classes.py:125-129)
    .ok { message_txt := some "" }

end UpdateHandler

/-- `MessageHandler.__init__` (handler_classes.py:162-176): `name = "text"`,
`list`/`button` keep the base-class `None`. -/
def MessageHandler (hid : Nat) (regex : Option (String → Bool))
    (func : Option (Option String → Except Unit Bool)) (action : Option ActionBeh)
    (context : Bool := true) (persistent : Bool := false) : UpdateHandler :=
  { hid := hid, kind := .message, name := some "text", regex := regex,
    func := func, action := action, context := context, persistent := persistent }

/-- `InteractiveQueryHandler.__init__` (handler_classes.py:184-205). -/
def InteractiveQueryHandler (hid : Nat) (regex : Option (String → Bool))
    (func : Option (Option String → Except Unit Bool))
    (handle_button : Bool := true) (handle_list : Bool := true)
    (action : Option ActionBeh := none) (context : Bool := true)
    (persistent : Bool := false) : UpdateHandler :=
  { hid := hid, kind := .interactive, name := some "interactive", regex := regex,
    func := func, action := action, context := context,
    list := some handle_list, button := some handle_button, persistent := persistent }

/-- `ImageHandler.__init__` via `MediaHandler.__init__`
(handler_classes.py:218-238). -/
def ImageHandler (hid : Nat) (regex : Option (String → Bool) := none)
    (func : Option (Option String → Except Unit Bool) := none)
    (action : Option ActionBeh := none) (context : Bool := true)
    (persistent : Bool := false) : UpdateHandler :=
  { hid := hid, kind := .image, name := some "image", regex := regex,
    func := func, action := action, context := context, persistent := persistent }

/-- `AudioHandler.__init__` (handler_classes.py:251-255). -/
def AudioHandler (hid : Nat) (regex : Option (String → Bool) := none)
    (func : Option (Option String → Except Unit Bool) := none)
    (action : Option ActionBeh := none) (context : Bool := true)
    (persistent : Bool := false) : UpdateHandler :=
  { hid := hid, kind := .audio, name := some "audio", regex := regex,
    func := func, action := action, context := context, persistent := persistent }

/-- `VideoHandler.__init__` (handler_classes.py:268-272). -/
def VideoHandler (hid : Nat) (regex : Option (String → Bool) := none)
    (func : Option (Option String → Except Unit Bool) := none)
    (action : Option ActionBeh := none) (context : Bool := true)
    (persistent : Bool := false) : UpdateHandler :=
  { hid := hid, kind := .video, name := some "video", regex := regex,
    func := func, action := action, context := context, persistent := persistent }

/-- `StickerHandler.__init__` (handler_classes.py:285-289). -/
def StickerHandler (hid : Nat) (action : Option ActionBeh := none)
    (context : Bool := true) (persistent : Bool := false) : UpdateHandler :=
  { hid := hid, kind := .sticker, name := some "sticker",
    action := action, context := context, persistent := persistent }

/-- `LocationHandler.__init__` (handler_classes.py:301-316). -/
def LocationHandler (hid : Nat) (regex : Option (String → Bool) := none)
    (func : Option (Option String → Except Unit Bool) := none)
    (action : Option ActionBeh := none) (context : Bool := true)
    (persistent : Bool := false) : UpdateHandler :=
  { hid := hid, kind := .location, name := some "location", regex := regex,
    func := func, action := action, context := context, persistent := persistent }

/-- The `value` object of a webhook update:
`update["entry"][0]["changes"][0]["value"]`. -/
structure Value where
  /-- `value["metadata"]["phone_number_id"]` as a string
  (`none` = the `keys_exists(value, "metadata", "phone_number_id")` check fails). -/
  phone_number_id : Option String := none
  /-- `value["messages"]` (`none` = the `"messages"` key is absent). -/
  messages : Option (List Msg) := none
  /-- `value.get("contacts", [{}])[0].get("wa_id", "")`, the field
  `Update.user_phone_number` is built from (handler_classes.py:18). -/
  wa_id : String := ""

/-- A raw webhook update, reduced to the part the dispatcher reads:
`none` models a payload where `keys_exists(update, "entry", 0, "changes", 0,
"value")` fails, `some v` carries the extracted `value` object. -/
def RawUpdate : Type := Option Value

/-- One entry of the `next_step_handler` dictionary
(`self.next_step_handler[user_phone]`): itself a dictionary with an optional
`"fallback_function"` key and a `"next_step_handler"` key. -/
structure NextStepEntry where
  fallback_function : Option UpdateHandler := none
  next_step_handler : UpdateHandler

/-- The dispatcher state the claims are about (dispatcher.py:42-49):
the bot identity it validates against, the `mark_as_read` flag, the
append-only handler registry and the per-sender conversation-override store.
The store is the `next_step_handler : Dict[str, Dict[str, Any]]` dictionary,
modelled as a function from sender id to an optional entry (a dictionary
holds at most one value per key). -/
structure Dispatcher where
  bot_id : String
  mark_as_read : Bool := true
  registered_handlers : List UpdateHandler := []
  next_step_handler : String → Option NextStepEntry := fun _ => none

namespace Dispatcher

/-- `Dispatcher._is_for_this_bot` (dispatcher.py:211-217): missing
`metadata.phone_number_id` → `False`; else compare
`str(value["metadata"]["phone_number_id"]) == str(self.bot.id)`. -/
def _is_for_this_bot (d : Dispatcher) (value : Value) : Bool :=
  match value.phone_number_id with
  | none => false
  | some pid => pid = d.bot_id

/-- `Dispatcher._get_matched_handlers` (dispatcher.py:219-243).  The code
only reads `update.user_phone_number` from the update object, so the model
takes the phone number directly. -/
def _get_matched_handlers (d : Dispatcher) (user_phone : String) :
    List UpdateHandler :=
  let persistent_handlers := d.registered_handlers.filter (·.persistent)
  let matched_handlers :=
    match d.next_step_handler user_phone with
    | some users_next_step =>
      (match users_next_step.fallback_function with
       | some fb => [fb]
       | none => []) ++ [users_next_step.next_step_handler]
    | none => d.registered_handlers
  persistent_handlers ++ matched_handlers

/-- `Dispatcher._cleanup_next_step_handler` (dispatcher.py:245-254): delete
the sender's entry only when the executed handler is (by Python object
identity) the stored next-step handler or the stored fallback; with no entry,
`.get(user_phone, {})` yields `{}` whose lookups give `None`, never equal to
a handler object. -/
def _cleanup_next_step_handler (d : Dispatcher) (user_phone : String)
    (handler : UpdateHandler) : Dispatcher :=
  match d.next_step_handler user_phone with
  | some user_next =>
    if (user_next.next_step_handler.hid == handler.hid
        || (match user_next.fallback_function with
            | some fb => fb.hid == handler.hid
            | none => false)) then
      { d with next_step_handler :=
          Function.update d.next_step_handler user_phone none }
    else d
  | none => d

/-- Outcome of `_check_and_run_handler`'s body once the filter has passed
or failed without raising. -/
inductive CheckOutcome where
  /-- The method returned `False` without invoking the action: filter
  returned falsy, or `extract_data` / `run`'s introspection raised inside
  the `try` block. -/
  | noMatch
  /-- The action was invoked and raised; caught at dispatcher.py:287-289,
  the method returns `False`. -/
  | invokedRaised
  /-- The action was invoked and returned; the method returns `True`. -/
  | invokedOk
deriving DecidableEq, Repr

/-- `Dispatcher._check_and_run_handler` (dispatcher.py:256-289).
`handler.filter_check` runs OUTSIDE the `try` block, so an exception it
raises propagates to the caller (`.error ()` here).  Inside the `try`,
`extract_data` is re-run (a second raise is caught and yields `False`), and
`handler.run` invokes the action: `action is None` makes
`inspect.getfullargspec` raise before any invocation.  The first message is
`value.get("messages", [{}])[0]`, passed in by the caller.
The method returns `True` exactly on `CheckOutcome.invokedOk`. -/
def _check_and_run_handler (handler : UpdateHandler) (first_msg : Msg)
    (message : Option String) : Except Unit CheckOutcome :=
  match handler.filter_check message with
  | .error e => .error e
  | .ok false => .ok .noMatch
  | .ok true =>
    match handler.extract_data first_msg with
    | .error _ => .ok .noMatch
    | .ok _ =>
      match handler.action with
      | none => .ok .noMatch
      | some .raises => .ok .invokedRaised
      | some .ok => .ok .invokedOk

/-- Result of processing one update: the dispatcher state afterwards, the
`hid`s of every handler whose action got invoked (in invocation order), and
whether an exception escaped `_process_queue` (to be caught by
`process_update`'s outer `try`, dispatcher.py:65-71 — so it is still not
surfaced to the webhook caller). -/
structure ProcResult where
  dispatcher : Dispatcher
  invoked : List Nat := []
  uncaught : Bool := false

/-- The candidate walk of `_process_queue` (dispatcher.py:129-148), shared
verbatim by `_aprocess_queue` (dispatcher.py:182-201): skip a candidate whose
`name` differs from the message's `type`; a raise in the first `extract_data`
is caught and the walk continues; then `_check_and_run_handler` — `True`
triggers `_cleanup_next_step_handler` and `return`, `False` continues, and an
uncaught exception (a raising filter) aborts the walk.
(`isinstance(handler, UpdateHandler)` is always true here: every element of
the registry and of the override store is an `UpdateHandler`.) -/
def processHandlers (d : Dispatcher) (user_phone : String) (first_msg : Msg) :
    List UpdateHandler → ProcResult
  | [] => { dispatcher := d }
  | handler :: rest =>
    if handler.name ≠ first_msg.type then
      processHandlers d user_phone first_msg rest
    else
      match handler.extract_data first_msg with
      | .error _ => processHandlers d user_phone first_msg rest
      | .ok extracted =>
        match _check_and_run_handler handler first_msg extracted.message_txt with
        | .error _ => { dispatcher := d, uncaught := true }
        | .ok .invokedOk =>
          { dispatcher := _cleanup_next_step_handler d user_phone handler,
            invoked := [handler.hid] }
        | .ok .invokedRaised =>
          let r := processHandlers d user_phone first_msg rest
          { r with invoked := handler.hid :: r.invoked }
        | .ok .noMatch => processHandlers d user_phone first_msg rest

/-- `Dispatcher._process_queue` (dispatcher.py:97-148) for one update:
structure validation, bot-identity check, messages presence, then the
candidate walk.  `value["messages"][0]` on an empty list raises IndexError
(uncaught inside `_process_queue`).  The best-effort `mark_as_read` call
(dispatcher.py:117-121) only performs I/O and logging — it has no effect on
any state in the model, so it does not appear. -/
def _process_queue (d : Dispatcher) (update : RawUpdate) : ProcResult :=
  match update with
  | none => { dispatcher := d }
  | some value =>
    if ¬ d._is_for_this_bot value then { dispatcher := d }
    else
      match value.messages with
      | none => { dispatcher := d }
      | some [] => { dispatcher := d, uncaught := true }
      | some (first_msg :: _) =>
        let user_phone := value.wa_id
        let matched_handlers := d._get_matched_handlers user_phone
        processHandlers d user_phone first_msg matched_handlers

/-- `Dispatcher._register_handler` (dispatcher.py:326-342): append and
return the new index.  (The `isinstance` guard cannot fire in the model:
every `UpdateHandler` value is an instance.) -/
def _register_handler (d : Dispatcher) (handler_instance : UpdateHandler) :
    Dispatcher × Nat :=
  ({ d with registered_handlers := d.registered_handlers ++ [handler_instance] },
   d.registered_handlers.length)

/-- Match-at-start predicate of the default
`end_conversation_keyword_regex = r"(?i)^(end|stop|cancel)$"`:
a case-insensitive full match of one of the three keywords (the text is
lowercased character by character and compared to each keyword). -/
def endConvKeywordMatch (s : String) : Bool :=
  let t := String.mk (s.data.map Char.toLower)
  t = "end" ∨ t = "stop" ∨ t = "cancel"

/-- The Python class object passed as `set_next_handler`'s `handler_type`:
`none` models a class that is not a subclass of `UpdateHandler` (the
`issubclass` guard fails); `some k` models the library class of kind `k`
(each is compared for equality against `MessageHandler` and
`InteractiveQueryHandler`). -/
def HandlerType : Type := Option HandlerKind

/-- `Dispatcher.set_next_handler` (dispatcher.py:344-409).  The code only
reads `update.user_phone_number` from the update object, so the model takes
the phone number directly.  `fb_hid`/`next_hid` are the identities of the two
freshly constructed handler objects.  Returns the error message
(`None` on success, per the docstring) and the new state.  The fallback is a
`MessageHandler` whose regex is the end-conversation keyword pattern; for a
`handler_type` equal to `MessageHandler` or `InteractiveQueryHandler` the
next-step handler is built by that class's constructor, otherwise a bare
`UpdateHandler()` gets `regex`/`func`/`action` assigned (its `name` stays
`None`).  (`UpdateHandler()` construction cannot raise, so the
`try`/`except` around it at dispatcher.py:398-406 never fires.) -/
def set_next_handler (d : Dispatcher) (user_phone : String)
    (function : Option ActionBeh) (handler_type : HandlerType)
    (regex : Option (String → Bool) := none)
    (func : Option (Option String → Except Unit Bool) := none)
    (end_conversation_action : Option ActionBeh := some .ok)
    (end_conversation_keyword_regex : String → Bool := endConvKeywordMatch)
    (fb_hid : Nat := 0) (next_hid : Nat := 1) :
    Option String × Dispatcher :=
  match handler_type with
  | none => (some "handler_type must be an UpdateHandler subclass", d)
  | some ht =>
    let fallback := MessageHandler fb_hid (some end_conversation_keyword_regex)
      none end_conversation_action
    let next :=
      if ht = .message then
        MessageHandler next_hid regex func function
      else if ht = .interactive then
        InteractiveQueryHandler next_hid regex func true true function
      else
        { hid := next_hid, kind := .base, regex := regex, func := func,
          action := function }
    let entry : NextStepEntry :=
      { fallback_function := some fallback, next_step_handler := next }
    (none,
     { d with next_step_handler :=
        (Function.update d.next_step_handler user_phone (some entry)) })

end Dispatcher

/-! ## Concrete example values used by witnesses and counterexamples -/

/-- A well-formed inbound text message, body `"hello"`. -/
def msgTextEx : Msg := { type := some "text", text_body := some "hello" }

/-- A well-formed inbound image message. -/
def msgImageEx : Msg :=
  { type := some "image",
    image := { caption := some "pic", mime_type := some "image/jpeg",
               id := some "image_123", sha256 := some "h" } }

/-- A `value` object of a text update from sender `"U"` addressed to bot
`"111"`. -/
def valueTextEx : Value :=
  { phone_number_id := some "111", messages := some [msgTextEx], wa_id := "U" }

/-- A `value` object of an image update from sender `"U"` addressed to bot
`"111"`. -/
def valueImageEx : Value :=
  { phone_number_id := some "111", messages := some [msgImageEx], wa_id := "U" }

/-- A `value` object whose `metadata.phone_number_id` names another bot. -/
def foreignValueEx : Value :=
  { phone_number_id := some "222", messages := some [msgTextEx], wa_id := "U" }

/-- A stored override pair: the usual end-keyword fallback and a plain
text next-step handler. -/
def nsEntryEx : NextStepEntry :=
  { fallback_function := some (MessageHandler 1 (some Dispatcher.endConvKeywordMatch) none (some .ok)),
    next_step_handler := MessageHandler 2 none none (some .ok) }

/-- A dispatcher whose override store maps every sender to `nsEntryEx`. -/
def dispOverrideEx : Dispatcher :=
  { bot_id := "111", next_step_handler := fun _ => some nsEntryEx }

/-- A dispatcher with one plain registered text handler and an empty
override store. -/
def dispPlainEx : Dispatcher :=
  { bot_id := "111", registered_handlers := [MessageHandler 3 none none (some .ok)] }

/-- An interactive button-reply message with id `"confirm"`. -/
def msgButtonConfirmEx : Msg :=
  { type := some "interactive",
    interactive := some { itype := some "button_reply", button_reply_id := some "confirm" } }

/-- An interactive list-reply message with id `"option_1"`. -/
def msgListOptionEx : Msg :=
  { type := some "interactive",
    interactive := some { itype := some "list_reply", list_reply_id := some "option_1" } }

/-- A location message carrying latitude `1` and longitude `2` but no
address (the fallback-text branch). -/
def msgLocationNoAddressEx : Msg :=
  { type := some "location",
    location := { name := some "Spot", latitude := some "1", longitude := some "2" } }

/-- A location message with an address (the `name\naddress` branch). -/
def msgLocationAddressEx : Msg :=
  { type := some "location",
    location := { name := some "Spot", address := some "12 High St",
                  latitude := some "1", longitude := some "2" } }

/-- A text handler whose action raises when invoked. -/
def raisingTextHandlerEx : UpdateHandler := MessageHandler 10 none none (some .raises)

/-- A stored override whose next-step handler's action raises. -/
def nsEntryRaisesEx : NextStepEntry :=
  { fallback_function :=
      some (MessageHandler 1 (some Dispatcher.endConvKeywordMatch) none (some .ok)),
    next_step_handler := MessageHandler 2 none none (some .raises) }

/-- A dispatcher whose override store maps every sender to
`nsEntryRaisesEx`. -/
def dispOverrideRaisesEx : Dispatcher :=
  { bot_id := "111", next_step_handler := fun _ => some nsEntryRaisesEx }

/-- A dispatcher registering a raising text handler before a sound one. -/
def dispRegistryRaisesEx : Dispatcher :=
  { bot_id := "111",
    registered_handlers := [raisingTextHandlerEx, MessageHandler 11 none none (some .ok)] }

/-- A text handler whose custom filter callable raises. -/
def filterRaisesHandlerEx : UpdateHandler :=
  MessageHandler 20 none (some fun _ => .error ()) (some .ok)

/-- A dispatcher registering the raising-filter handler before a sound
handler that would match. -/
def dispFilterRaisesEx : Dispatcher :=
  { bot_id := "111",
    registered_handlers := [filterRaisesHandlerEx, MessageHandler 21 none none (some .ok)] }

/-- An interactive-kind handler with no filter and no action. -/
def interactiveHandlerEx : UpdateHandler := InteractiveQueryHandler 30 none none

/-- A message claiming type `interactive` but carrying no `interactive`
payload, so `InteractiveQueryHandler.extract_data` raises on it. -/
def msgInteractiveMalformedEx : Msg := { type := some "interactive" }

/-- A freshly constructed dispatcher with no handlers and no overrides. -/
def dispFreshEx : Dispatcher := { bot_id := "111" }

/-- The dispatcher state right after `set_next_handler` for sender `"U"`
with `handler_type = MessageHandler` on a fresh dispatcher. -/
def dispAfterSetEx : Dispatcher :=
  (Dispatcher.set_next_handler { bot_id := "111" } "U" (some .ok) (some .message)
    none none (some .ok) Dispatcher.endConvKeywordMatch 1 2).2

/-! ## Theorems -/

/-- Unfolding lemma: the walk on an empty candidate list stops with the
state unchanged. -/
theorem processHandlers_nil (d : Dispatcher) (p : String) (msg : Msg) :
    Dispatcher.processHandlers d p msg [] = { dispatcher := d } := rfl

/-- Unfolding lemma: one step of the candidate walk. -/
theorem processHandlers_cons (d : Dispatcher) (p : String) (msg : Msg)
    (handler : UpdateHandler) (rest : List UpdateHandler) :
    Dispatcher.processHandlers d p msg (handler :: rest) =
      if handler.name ≠ msg.type then Dispatcher.processHandlers d p msg rest
      else
        match handler.extract_data msg with
        | .error _ => Dispatcher.processHandlers d p msg rest
        | .ok extracted =>
          match Dispatcher._check_and_run_handler handler msg extracted.message_txt with
          | .error _ => { dispatcher := d, invoked := [], uncaught := true }
          | .ok .invokedOk =>
            { dispatcher := d._cleanup_next_step_handler p handler,
              invoked := [handler.hid], uncaught := false }
          | .ok .invokedRaised =>
            let r := Dispatcher.processHandlers d p msg rest
            { r with invoked := handler.hid :: r.invoked }
          | .ok .noMatch => Dispatcher.processHandlers d p msg rest := rfl

/-- Unfolding lemma: a candidate whose `name` differs from the message's
`type` is skipped. -/
theorem processHandlers_skip (d : Dispatcher) (p : String) (msg : Msg)
    (handler : UpdateHandler) (rest : List UpdateHandler)
    (hne : handler.name ≠ msg.type) :
    Dispatcher.processHandlers d p msg (handler :: rest) =
      Dispatcher.processHandlers d p msg rest := by
  rw [processHandlers_cons, if_pos hne]

/-- C3: for every update, the candidate list walked by the dispatch engine
is the persistent registry entries (in registration order) followed by
`[fallback, next]` when the sender has a stored override (fallback first),
and by the full registry in registration order otherwise. -/
theorem C3_candidate_handler_list (d : Dispatcher) (phone : String) :
    (∀ ns fb, d.next_step_handler phone = some ns → ns.fallback_function = some fb →
      d._get_matched_handlers phone =
        d.registered_handlers.filter (·.persistent) ++ [fb, ns.next_step_handler]) ∧
    (d.next_step_handler phone = none →
      d._get_matched_handlers phone =
        d.registered_handlers.filter (·.persistent) ++ d.registered_handlers) := by
  constructor
  · intro ns fb hns hfb
    simp [Dispatcher._get_matched_handlers, hns, hfb]
  · intro hns
    simp [Dispatcher._get_matched_handlers, hns]

/-- Witness for C3 at a dispatcher with an override for `"U"` and at one
without. -/
theorem C3_candidate_handler_list_witness :
    dispOverrideEx._get_matched_handlers "U" =
      dispOverrideEx.registered_handlers.filter (·.persistent) ++
        [MessageHandler 1 (some Dispatcher.endConvKeywordMatch) none (some .ok),
         nsEntryEx.next_step_handler] ∧
    dispPlainEx._get_matched_handlers "U" =
      dispPlainEx.registered_handlers.filter (·.persistent) ++
        dispPlainEx.registered_handlers :=
  ⟨(C3_candidate_handler_list dispOverrideEx "U").1 nsEntryEx _ rfl rfl,
   (C3_candidate_handler_list dispPlainEx "U").2 rfl⟩

/-- C5: an update whose `metadata.phone_number_id` differs from the bot's
configured identity is dropped silently: no handler action is invoked, the
registry and the override store are untouched, and no exception escapes. -/
theorem C5_foreign_recipient_dropped (d : Dispatcher) (value : Value)
    (h : value.phone_number_id ≠ some d.bot_id) :
    Dispatcher._process_queue d (some value) =
      { dispatcher := d, invoked := [], uncaught := false } := by
  have hbot : d._is_for_this_bot value = false := by
    unfold Dispatcher._is_for_this_bot
    cases hv : value.phone_number_id with
    | none => rfl
    | some pid =>
      simp only [decide_eq_false_iff_not]
      intro he
      exact h (by rw [hv, he])
  unfold Dispatcher._process_queue
  simp [hbot]

/-- Witness for C5: a concrete update addressed to bot `"222"` is dropped
by the dispatcher configured as `"111"`. -/
theorem C5_foreign_recipient_dropped_witness :
    foreignValueEx.phone_number_id ≠ some dispPlainEx.bot_id ∧
    Dispatcher._process_queue dispPlainEx (some foreignValueEx) =
      { dispatcher := dispPlainEx, invoked := [], uncaught := false } :=
  ⟨by decide, C5_foreign_recipient_dropped dispPlainEx foreignValueEx (by decide)⟩

/-- C6: on a button-reply interactive update with id `"confirm"`,
`InteractiveQueryHandler.extract_data` yields `message_txt = "confirm"`
exactly when the handler was configured with `handle_button`, and the empty
string otherwise; symmetrically for a list-reply update with id
`"option_1"` and `handle_list`. -/
theorem C6_interactive_subtype_gating (hid : Nat)
    (regex : Option (String → Bool)) (func : Option (Option String → Except Unit Bool))
    (hb hl : Bool) (action : Option ActionBeh) (context persistent : Bool) :
    (InteractiveQueryHandler hid regex func hb hl action context persistent).extract_data
        msgButtonConfirmEx = .ok { message_txt := some (if hb then "confirm" else "") } ∧
    ((InteractiveQueryHandler hid regex func hb hl action context persistent).extract_data
        msgButtonConfirmEx = .ok { message_txt := some "confirm" } ↔ hb = true) ∧
    (InteractiveQueryHandler hid regex func hb hl action context persistent).extract_data
        msgListOptionEx = .ok { message_txt := some (if hl then "option_1" else "") } ∧
    ((InteractiveQueryHandler hid regex func hb hl action context persistent).extract_data
        msgListOptionEx = .ok { message_txt := some "option_1" } ↔ hl = true) := by
  cases hb <;> cases hl <;>
    refine ⟨rfl, ?_, rfl, ?_⟩ <;>
      simp [UpdateHandler.extract_data, InteractiveQueryHandler,
        msgButtonConfirmEx, msgListOptionEx]

/-- C7 evaluated: `LocationHandler.extract_data` builds `"{name}\n{address}"`
when the address is present, but the no-address fallback interpolates the
longitude value into both the `long` and the `lat` slot: with latitude `1`
and longitude `2` it produces `"long - _2_\nlat - _2_"`. -/
theorem C7_location_fallback_embeds_longitude_twice :
    (LocationHandler 0).extract_data msgLocationAddressEx =
      .ok { message_txt := some "Spot\n12 High St", loc_address := some "12 High St",
            loc_name := some "Spot", loc_latitude := some "1", loc_longitude := some "2" } ∧
    (LocationHandler 0).extract_data msgLocationNoAddressEx =
      .ok { message_txt := some "long - _2_\nlat - _2_", loc_address := some "",
            loc_name := some "Spot", loc_latitude := some "1", loc_longitude := some "2" } :=
  ⟨rfl, rfl⟩

/-- C8: a (valid) `set_next_handler` call succeeds and unconditionally
replaces whatever the store held for that sender: the new entry is the same
whatever the previous store contained (in particular it is present), entries
of other senders and the registry are untouched — and since the store maps
each sender to at most one entry, a sender never holds two overrides. -/
theorem C8_set_next_handler_unconditional_replace (d : Dispatcher) (phone : String)
    (function : Option ActionBeh) (ht : HandlerKind)
    (regex : Option (String → Bool)) (func : Option (Option String → Except Unit Bool))
    (ea : Option ActionBeh) (ekw : String → Bool) (fb_hid next_hid : Nat) :
    (d.set_next_handler phone function (some ht) regex func ea ekw fb_hid next_hid).1 = none ∧
    (d.set_next_handler phone function (some ht) regex func ea ekw fb_hid next_hid).2.next_step_handler
        phone =
      (Dispatcher.set_next_handler { bot_id := d.bot_id } phone function (some ht) regex func ea ekw
          fb_hid next_hid).2.next_step_handler phone ∧
    ((d.set_next_handler phone function (some ht) regex func ea ekw fb_hid
        next_hid).2.next_step_handler phone).isSome = true ∧
    (∀ q, q ≠ phone →
      (d.set_next_handler phone function (some ht) regex func ea ekw fb_hid
          next_hid).2.next_step_handler q = d.next_step_handler q) ∧
    (d.set_next_handler phone function (some ht) regex func ea ekw fb_hid
        next_hid).2.registered_handlers = d.registered_handlers := by
  refine ⟨rfl, ?_, ?_, ?_, rfl⟩
  · simp [Dispatcher.set_next_handler]
  · simp [Dispatcher.set_next_handler]
  · intro q hq
    simp [Dispatcher.set_next_handler, Function.update_noteq hq]

/-- Witness for C8 at a dispatcher that already holds an override for the
sender `"U"` (it is replaced, and sender `"V"`'s entry survives). -/
theorem C8_set_next_handler_unconditional_replace_witness :
    (dispOverrideEx.set_next_handler "U" (some .ok) (some .message) none none (some .ok)
        Dispatcher.endConvKeywordMatch 8 9).1 = none ∧
    (dispOverrideEx.set_next_handler "U" (some .ok) (some .message) none none (some .ok)
        Dispatcher.endConvKeywordMatch 8 9).2.next_step_handler "U" =
      (Dispatcher.set_next_handler { bot_id := dispOverrideEx.bot_id } "U" (some .ok)
          (some .message) none none (some .ok)
          Dispatcher.endConvKeywordMatch 8 9).2.next_step_handler "U" ∧
    ((dispOverrideEx.set_next_handler "U" (some .ok) (some .message) none none (some .ok)
        Dispatcher.endConvKeywordMatch 8 9).2.next_step_handler "U").isSome = true ∧
    (dispOverrideEx.set_next_handler "U" (some .ok) (some .message) none none (some .ok)
        Dispatcher.endConvKeywordMatch 8 9).2.next_step_handler "V" =
      dispOverrideEx.next_step_handler "V" ∧
    (dispOverrideEx.set_next_handler "U" (some .ok) (some .message) none none (some .ok)
        Dispatcher.endConvKeywordMatch 8 9).2.registered_handlers =
      dispOverrideEx.registered_handlers := by
  have h := C8_set_next_handler_unconditional_replace dispOverrideEx "U" (some .ok) .message
    none none (some .ok) Dispatcher.endConvKeywordMatch 8 9
  exact ⟨h.1, h.2.1, h.2.2.1, h.2.2.2.1 "V" (by decide), h.2.2.2.2⟩

/-- C9: `_cleanup_next_step_handler` deletes a sender's override exactly when
the executed handler is (by object identity) the stored next-step handler or
the stored fallback; otherwise — including when the sender has no override —
it is a no-op, and it is idempotent. -/
theorem C9_cleanup_semantics (d : Dispatcher) (phone : String) (h : UpdateHandler) :
    (∀ un, d.next_step_handler phone = some un →
      ((un.next_step_handler.hid = h.hid ∨
          ∃ fb, un.fallback_function = some fb ∧ fb.hid = h.hid) →
        (d._cleanup_next_step_handler phone h).next_step_handler phone = none ∧
        (∀ q, q ≠ phone →
          (d._cleanup_next_step_handler phone h).next_step_handler q =
            d.next_step_handler q) ∧
        (d._cleanup_next_step_handler phone h).registered_handlers =
          d.registered_handlers) ∧
      (¬ (un.next_step_handler.hid = h.hid ∨
          ∃ fb, un.fallback_function = some fb ∧ fb.hid = h.hid) →
        d._cleanup_next_step_handler phone h = d)) ∧
    (d.next_step_handler phone = none → d._cleanup_next_step_handler phone h = d) ∧
    (d._cleanup_next_step_handler phone h)._cleanup_next_step_handler phone h =
      d._cleanup_next_step_handler phone h := by
  have hnoop : ∀ (x : Dispatcher), x.next_step_handler phone = none →
      x._cleanup_next_step_handler phone h = x := by
    intro x hx
    unfold Dispatcher._cleanup_next_step_handler
    rw [hx]
  have hdelete : ∀ un, d.next_step_handler phone = some un →
      ((un.next_step_handler.hid == h.hid)
        || (match un.fallback_function with
            | some fb => fb.hid == h.hid
            | none => false)) = true →
      d._cleanup_next_step_handler phone h =
        { d with next_step_handler :=
            Function.update d.next_step_handler phone none } := by
    intro un hun hb
    unfold Dispatcher._cleanup_next_step_handler
    rw [hun]
    simp [hb]
  have hkeep : ∀ un, d.next_step_handler phone = some un →
      ((un.next_step_handler.hid == h.hid)
        || (match un.fallback_function with
            | some fb => fb.hid == h.hid
            | none => false)) = false →
      d._cleanup_next_step_handler phone h = d := by
    intro un hun hb
    unfold Dispatcher._cleanup_next_step_handler
    rw [hun]
    simp [hb]
  have hcond : ∀ un : NextStepEntry,
      ((un.next_step_handler.hid == h.hid)
        || (match un.fallback_function with
            | some fb => fb.hid == h.hid
            | none => false)) = true ↔
      (un.next_step_handler.hid = h.hid ∨
        ∃ fb, un.fallback_function = some fb ∧ fb.hid = h.hid) := by
    intro un
    cases hfb : un.fallback_function with
    | none => simp
    | some fb => simp
  refine ⟨?_, fun hn => hnoop d hn, ?_⟩
  · intro un hun
    constructor
    · intro hp
      rw [hdelete un hun ((hcond un).mpr hp)]
      exact ⟨Function.update_same _ _ _,
        fun q hq => Function.update_noteq hq _ _, rfl⟩
    · intro hp
      refine hkeep un hun ?_
      cases hb : ((un.next_step_handler.hid == h.hid)
          || (match un.fallback_function with
              | some fb => fb.hid == h.hid
              | none => false)) with
      | false => rfl
      | true => exact absurd ((hcond un).mp hb) hp
  · cases hun : d.next_step_handler phone with
    | none => rw [hnoop d hun, hnoop d hun]
    | some un =>
      cases hb : ((un.next_step_handler.hid == h.hid)
          || (match un.fallback_function with
              | some fb => fb.hid == h.hid
              | none => false)) with
      | false => rw [hkeep un hun hb, hkeep un hun hb]
      | true =>
        rw [hdelete un hun hb]
        exact hnoop _ (Function.update_same _ _ _)

/-- Witness for C9: deleting the override of `"U"` by executing its stored
next-step handler (identity tag `2`), a no-op for an unrelated handler, and
idempotence, all at a concrete store. -/
theorem C9_cleanup_semantics_witness :
    (dispOverrideEx._cleanup_next_step_handler "U"
        (MessageHandler 2 none none (some .ok))).next_step_handler "U" = none ∧
    dispOverrideEx._cleanup_next_step_handler "U"
        (MessageHandler 99 none none (some .ok)) = dispOverrideEx ∧
    (dispOverrideEx._cleanup_next_step_handler "U"
        (MessageHandler 2 none none (some .ok)))._cleanup_next_step_handler "U"
        (MessageHandler 2 none none (some .ok)) =
      dispOverrideEx._cleanup_next_step_handler "U"
        (MessageHandler 2 none none (some .ok)) := by
  refine ⟨?_, ?_, ?_⟩
  · exact (((C9_cleanup_semantics dispOverrideEx "U"
      (MessageHandler 2 none none (some .ok))).1 nsEntryEx rfl).1 (Or.inl rfl)).1
  · exact ((C9_cleanup_semantics dispOverrideEx "U"
      (MessageHandler 99 none none (some .ok))).1 nsEntryEx rfl).2 (by decide)
  · exact (C9_cleanup_semantics dispOverrideEx "U"
      (MessageHandler 2 none none (some .ok))).2.2

/-- C10: `set_next_handler` with any `UpdateHandler` subclass other than
`MessageHandler` and `InteractiveQueryHandler` succeeds (returns `None`) but
installs a bare next-step handler whose `name` is `None`; since the walk
skips every candidate whose `name` differs from the inbound message's type
string, that handler is skipped for every message that carries a type
string, so only the fallback (or a persistent handler) can execute. -/
theorem C10_generic_handler_type_unreachable (d : Dispatcher) (phone : String)
    (function : Option ActionBeh) (ht : HandlerKind)
    (regex : Option (String → Bool)) (func : Option (Option String → Except Unit Bool))
    (ea : Option ActionBeh) (ekw : String → Bool) (fb_hid next_hid : Nat)
    (hm : ht ≠ .message) (hi : ht ≠ .interactive) :
    (d.set_next_handler phone function (some ht) regex func ea ekw fb_hid next_hid).1 = none ∧
    ∀ entry,
      (d.set_next_handler phone function (some ht) regex func ea ekw fb_hid
          next_hid).2.next_step_handler phone = some entry →
      entry.next_step_handler.name = none ∧
      ∀ (d' : Dispatcher) (p : String) (msg : Msg) (rest : List UpdateHandler),
        msg.type.isSome = true →
        Dispatcher.processHandlers d' p msg (entry.next_step_handler :: rest) =
          Dispatcher.processHandlers d' p msg rest := by
  refine ⟨rfl, ?_⟩
  intro entry hentry
  rw [show (d.set_next_handler phone function (some ht) regex func ea ekw fb_hid
      next_hid).2.next_step_handler phone =
      some { fallback_function :=
               some (MessageHandler fb_hid (some ekw) none ea),
             next_step_handler :=
               { hid := next_hid, kind := .base, regex := regex, func := func,
                 action := function } } from by
    simp [Dispatcher.set_next_handler, hm, hi]] at hentry
  cases hentry
  refine ⟨rfl, ?_⟩
  intro d' p msg rest htype
  cases ht' : msg.type with
  | none => rw [ht'] at htype; exact absurd htype (by simp)
  | some t =>
    refine processHandlers_skip d' p msg _ rest ?_
    rw [ht']
    exact fun hc => Option.noConfusion hc

/-- Witness for C10: passing the `ImageHandler` class installs a type-less
next-step handler that the walk skips on a concrete image update's message. -/
theorem C10_generic_handler_type_unreachable_witness :
    (dispPlainEx.set_next_handler "U" (some .ok) (some .image) none none (some .ok)
        Dispatcher.endConvKeywordMatch 8 9).1 = none ∧
    ∀ entry,
      (dispPlainEx.set_next_handler "U" (some .ok) (some .image) none none (some .ok)
          Dispatcher.endConvKeywordMatch 8 9).2.next_step_handler "U" = some entry →
      entry.next_step_handler.name = none ∧
      ∀ (d' : Dispatcher) (p : String) (msg : Msg) (rest : List UpdateHandler),
        msg.type.isSome = true →
        Dispatcher.processHandlers d' p msg (entry.next_step_handler :: rest) =
          Dispatcher.processHandlers d' p msg rest :=
  C10_generic_handler_type_unreachable dispPlainEx "U" (some .ok) .image none none
    (some .ok) Dispatcher.endConvKeywordMatch 8 9 (by decide) (by decide)

/-- C1 refuted at a concrete input: with an override for `"U"` whose
next-step action raises, the text update `"hello"` invokes that action
(handler `2`), the error is caught, but the candidate does NOT count as
executed — the override entry is still present afterwards; and with a
registry `[raising, sound]`, both candidates are invoked for one update,
so dispatch does not stop at the first matching candidate. -/
theorem C1_counterexample :
    (Dispatcher._process_queue dispOverrideRaisesEx (some valueTextEx)).invoked = [2] ∧
    ((Dispatcher._process_queue dispOverrideRaisesEx
        (some valueTextEx)).dispatcher.next_step_handler "U").isSome = true ∧
    (Dispatcher._process_queue dispRegistryRaisesEx (some valueTextEx)).invoked = [10, 11] ∧
    (Dispatcher._process_queue dispRegistryRaisesEx (some valueTextEx)).uncaught = false :=
  ⟨rfl, rfl, rfl, rfl⟩

/-- C1 amended: when a candidate matches (kind and filter) and its action
raises, the error is caught and not re-raised, the invocation is recorded,
but `_check_and_run_handler` returns `False`: the walk continues with the
remaining candidates and no override cleanup happens for this candidate —
the rest of the result is exactly the result of walking the remaining
candidates. -/
theorem C1_amended_action_error_contained (d : Dispatcher) (phone : String)
    (msg : Msg) (handler : UpdateHandler) (rest : List UpdateHandler)
    (hname : handler.name = msg.type)
    (hrun : ∃ data, handler.extract_data msg = .ok data ∧
      handler.filter_check data.message_txt = .ok true)
    (hact : handler.action = some .raises) :
    Dispatcher.processHandlers d phone msg (handler :: rest) =
      { dispatcher := (Dispatcher.processHandlers d phone msg rest).dispatcher,
        invoked := handler.hid :: (Dispatcher.processHandlers d phone msg rest).invoked,
        uncaught := (Dispatcher.processHandlers d phone msg rest).uncaught } := by
  obtain ⟨data, hext, hfil⟩ := hrun
  have hcheck : Dispatcher._check_and_run_handler handler msg data.message_txt =
      .ok .invokedRaised := by
    unfold Dispatcher._check_and_run_handler
    simp only [hfil, hext, hact]
  rw [processHandlers_cons, if_neg (not_not_intro hname)]
  simp only [hext, hcheck]

/-- Witness for the amended C1: a raising text handler walked alone. -/
theorem C1_amended_action_error_contained_witness :
    raisingTextHandlerEx.name = msgTextEx.type ∧
    raisingTextHandlerEx.action = some .raises ∧
    Dispatcher.processHandlers dispPlainEx "U" msgTextEx [raisingTextHandlerEx] =
      { dispatcher := (Dispatcher.processHandlers dispPlainEx "U" msgTextEx []).dispatcher,
        invoked := raisingTextHandlerEx.hid ::
          (Dispatcher.processHandlers dispPlainEx "U" msgTextEx []).invoked,
        uncaught := (Dispatcher.processHandlers dispPlainEx "U" msgTextEx []).uncaught } :=
  ⟨rfl, rfl,
   C1_amended_action_error_contained dispPlainEx "U" msgTextEx raisingTextHandlerEx []
     rfl ⟨{ message_txt := some "hello" }, rfl, rfl⟩ rfl⟩

/-- C4 refuted at a concrete input: a registry `[filter-raises, sound]` on a
text update aborts the whole walk — the raising filter's exception escapes
`_process_queue` (caught only by `process_update`'s outer handler) and the
sound second candidate is never tried, contradicting "the walk continues to
the next candidate". -/
theorem C4_counterexample :
    (Dispatcher._process_queue dispFilterRaisesEx (some valueTextEx)).uncaught = true ∧
    (Dispatcher._process_queue dispFilterRaisesEx (some valueTextEx)).invoked = [] :=
  ⟨rfl, rfl⟩

/-- C4 amended: an error raised inside a candidate's extraction is caught
and treated as "does not match" (the walk continues with the remaining
candidates), but an error raised inside a candidate's filter-check
propagates out of the walk: processing of the update aborts with no
further candidate tried and no handler invoked. -/
theorem C4_amended_extraction_caught_filter_raise_aborts (d : Dispatcher)
    (phone : String) (msg : Msg) (handler : UpdateHandler)
    (rest : List UpdateHandler) :
    (handler.name = msg.type → handler.extract_data msg = .error () →
      Dispatcher.processHandlers d phone msg (handler :: rest) =
        Dispatcher.processHandlers d phone msg rest) ∧
    (handler.name = msg.type → ∀ data, handler.extract_data msg = .ok data →
      handler.filter_check data.message_txt = .error () →
      Dispatcher.processHandlers d phone msg (handler :: rest) =
        { dispatcher := d, invoked := [], uncaught := true }) := by
  constructor
  · intro hname hext
    rw [processHandlers_cons, if_neg (not_not_intro hname)]
    simp only [hext]
  · intro hname data hext hfil
    have hcheck : Dispatcher._check_and_run_handler handler msg data.message_txt =
        .error () := by
      unfold Dispatcher._check_and_run_handler
      simp only [hfil]
    rw [processHandlers_cons, if_neg (not_not_intro hname)]
    simp only [hext, hcheck]

/-- Witness for the amended C4: a malformed interactive message whose
extraction raises is skipped, and a raising filter aborts the walk. -/
theorem C4_amended_witness :
    interactiveHandlerEx.name = msgInteractiveMalformedEx.type ∧
    interactiveHandlerEx.extract_data msgInteractiveMalformedEx = .error () ∧
    Dispatcher.processHandlers dispPlainEx "U" msgInteractiveMalformedEx
        [interactiveHandlerEx] =
      Dispatcher.processHandlers dispPlainEx "U" msgInteractiveMalformedEx [] ∧
    Dispatcher.processHandlers dispPlainEx "U" msgTextEx [filterRaisesHandlerEx] =
      { dispatcher := dispPlainEx, invoked := [], uncaught := true } :=
  ⟨rfl, rfl,
   (C4_amended_extraction_caught_filter_raise_aborts dispPlainEx "U"
     msgInteractiveMalformedEx interactiveHandlerEx []).1 rfl rfl,
   (C4_amended_extraction_caught_filter_raise_aborts dispPlainEx "U"
     msgTextEx filterRaisesHandlerEx []).2 rfl { message_txt := some "hello" } rfl rfl⟩

/-- C2 refuted at a concrete input: after `set_next_handler` for `"U"` with
`handler_type = MessageHandler`, an image update from `"U"` executes neither
stored handler (both have kind name `"text"`), and the override entry is
still present afterwards — so "delivering any update from S executes exactly
one of the stored pair … and the override is absent" fails. -/
theorem C2_counterexample :
    (Dispatcher._process_queue dispAfterSetEx (some valueImageEx)).invoked = [] ∧
    ((Dispatcher._process_queue dispAfterSetEx
        (some valueImageEx)).dispatcher.next_step_handler "U").isSome = true :=
  ⟨rfl, rfl⟩

/-- C2 amended: after `set_next_handler` for sender `S` with
`handler_type = MessageHandler`, no custom filter and non-raising actions,
delivering a TEXT update from `S` while the registry holds no persistent
handlers executes exactly one of the stored pair — the fallback when the
text matches the end-conversation keyword pattern, otherwise the next
handler, never both — and the override entry for `S` is removed (all other
senders' entries and the registry untouched, no exception escaping). -/
theorem C2_amended_text_update_consumes_override (d : Dispatcher) (S : String)
    (value : Value) (msg : Msg) (more : List Msg) (txt : String)
    (fb_hid next_hid : Nat)
    (hpers : d.registered_handlers.filter (·.persistent) = [])
    (hbot : value.phone_number_id = some d.bot_id)
    (hmsg : value.messages = some (msg :: more))
    (htype : msg.type = some "text")
    (hbody : msg.text_body = some txt)
    (hwa : value.wa_id = S) :
    Dispatcher._process_queue
        ((d.set_next_handler S (some .ok) (some .message) none none (some .ok)
          Dispatcher.endConvKeywordMatch fb_hid next_hid).2) (some value) =
      { dispatcher :=
          { d with next_step_handler := Function.update d.next_step_handler S none },
        invoked := [if Dispatcher.endConvKeywordMatch txt then fb_hid else next_hid],
        uncaught := false } := by
  set fbH : UpdateHandler :=
    MessageHandler fb_hid (some Dispatcher.endConvKeywordMatch) none (some .ok)
    with hfbH
  set nxtH : UpdateHandler := MessageHandler next_hid none none (some .ok)
    with hnxtH
  set entry : NextStepEntry :=
    { fallback_function := some fbH, next_step_handler := nxtH } with hentry
  set d' : Dispatcher :=
    { d with next_step_handler := Function.update d.next_step_handler S (some entry) }
    with hd'
  have hset : (d.set_next_handler S (some .ok) (some .message) none none (some .ok)
      Dispatcher.endConvKeywordMatch fb_hid next_hid).2 = d' := rfl
  rw [hset]
  have hbotd : d'._is_for_this_bot value = true := by
    simp [Dispatcher._is_for_this_bot, hd', hbot]
  have hmatched : d'._get_matched_handlers S = [fbH, nxtH] := by
    simp [Dispatcher._get_matched_handlers, hd', hentry, Function.update_same, hpers]
  have hext_fb : fbH.extract_data msg = .ok { message_txt := some txt } := by
    simp [hfbH, MessageHandler, UpdateHandler.extract_data, hbody]
  have hext_nx : nxtH.extract_data msg = .ok { message_txt := some txt } := by
    simp [hnxtH, MessageHandler, UpdateHandler.extract_data, hbody]
  have hclean_fb : d'._cleanup_next_step_handler S fbH =
      { d with next_step_handler := Function.update d.next_step_handler S none } := by
    unfold Dispatcher._cleanup_next_step_handler
    simp [hd', hentry, Function.update_same, Function.update_idem]
  have hclean_nx : d'._cleanup_next_step_handler S nxtH =
      { d with next_step_handler := Function.update d.next_step_handler S none } := by
    unfold Dispatcher._cleanup_next_step_handler
    simp [hd', hentry, Function.update_same, Function.update_idem]
  have hname_fb : fbH.name = msg.type := by rw [htype]; rfl
  have hname_nx : nxtH.name = msg.type := by rw [htype]; rfl
  have hgoal : Dispatcher._process_queue d' (some value) =
      Dispatcher.processHandlers d' S msg [fbH, nxtH] := by
    simp [Dispatcher._process_queue, hbotd, hmsg, hwa, hmatched]
  have hact_fb : fbH.action = some ActionBeh.ok := by
    rw [hfbH]
    rfl
  have hact_nx : nxtH.action = some ActionBeh.ok := by
    rw [hnxtH]
    rfl
  have hfil_nx : nxtH.filter_check (some txt) = .ok true := by
    rw [hnxtH]
    simp [MessageHandler, UpdateHandler.filter_check]
  rw [hgoal]
  cases hkw : Dispatcher.endConvKeywordMatch txt with
  | true =>
    have hfil_fb : fbH.filter_check (some txt) = .ok true := by
      rw [hfbH]
      simp [MessageHandler, UpdateHandler.filter_check, hkw]
    have hcheck_fb : Dispatcher._check_and_run_handler fbH msg (some txt) =
        .ok .invokedOk := by
      unfold Dispatcher._check_and_run_handler
      simp only [hfil_fb, hext_fb, hact_fb]
    rw [processHandlers_cons, if_neg (not_not_intro hname_fb)]
    simp only [hext_fb, hcheck_fb, hclean_fb]
    simp [hkw, hfbH, MessageHandler]
  | false =>
    have hfil_fb : fbH.filter_check (some txt) = .ok false := by
      rw [hfbH]
      simp [MessageHandler, UpdateHandler.filter_check, hkw]
    have hcheck_fb : Dispatcher._check_and_run_handler fbH msg (some txt) =
        .ok .noMatch := by
      unfold Dispatcher._check_and_run_handler
      simp only [hfil_fb]
    have hcheck_nx : Dispatcher._check_and_run_handler nxtH msg (some txt) =
        .ok .invokedOk := by
      unfold Dispatcher._check_and_run_handler
      simp only [hfil_nx, hext_nx, hact_nx]
    rw [processHandlers_cons, if_neg (not_not_intro hname_fb)]
    simp only [hext_fb, hcheck_fb]
    rw [processHandlers_cons, if_neg (not_not_intro hname_nx)]
    simp only [hext_nx, hcheck_nx, hclean_nx]
    simp [hkw, hnxtH, MessageHandler]

/-- Witness for the amended C2: a fresh dispatcher, override set for `"U"`,
then the text update `"hello"` (not an end keyword) — the next handler
(identity `2`) runs and the override is gone. -/
theorem C2_amended_text_update_consumes_override_witness :
    dispFreshEx.registered_handlers.filter (·.persistent) = [] ∧
    Dispatcher._process_queue
        ((Dispatcher.set_next_handler dispFreshEx "U" (some .ok) (some .message)
          none none (some .ok) Dispatcher.endConvKeywordMatch 1 2).2) (some valueTextEx) =
      { dispatcher :=
          { dispFreshEx with next_step_handler := Function.update dispFreshEx.next_step_handler "U" none },
        invoked := [if Dispatcher.endConvKeywordMatch "hello" then 1 else 2],
        uncaught := false } :=
  ⟨rfl, C2_amended_text_update_consumes_override dispFreshEx "U" valueTextEx
    msgTextEx [] "hello" 1 2 rfl rfl rfl rfl rfl rfl⟩

end WhatsappBot
